import Mathlib

/-!
Verification of the threshold-evaluation and alert-composition routine of
`crypto_price_monitor.py`, shallowly embedded in Lean 4.

Prices and thresholds are modelled as rationals (`ℚ`); Python dictionaries
are modelled as association lists whose order is the dict's insertion order;
the optional `usd_24h_change` field of an API price entry is an `Option ℚ`
(`dict.get` with default `0` becomes `Option.getD`).
-/

namespace CryptoMonitor

/-- Per-coin monitoring configuration, one entry of the `MONITORS` dict. -/
structure CoinConfig where
  symbol : String
  low_threshold : ℚ
  high_threshold : ℚ
  deriving DecidableEq, Repr

/-- One coin's entry in the JSON returned by the price API: the `usd` price
and the optional `usd_24h_change` field. -/
structure PriceSample where
  usd : ℚ
  usd_24h_change : Option ℚ
  deriving DecidableEq, Repr

/-- The static `MONITORS` configuration dict, in insertion order. -/
def MONITORS : List (String × CoinConfig) :=
  [("bitcoin", ⟨"BTC", 40000, 70000⟩),
   ("ethereum", ⟨"ETH", 2500, 4000⟩),
   ("binancecoin", ⟨"BNB", 300, 500⟩)]

/-- Dictionary lookup `prices[coin_id]` on the association-list model
(`none` models `coin_id not in prices`). -/
def lookupPrice (coin_id : String) : List (String × PriceSample) → Option PriceSample
  | [] => none
  | (k, v) :: rest => if k = coin_id then some v else lookupPrice coin_id rest

/-! ### Number formatting (Python `format` specs) -/

/-- Floor of a rational, computed on `num`/`den` with floor division. -/
def qfloor (q : ℚ) : ℤ := Int.fdiv q.num q.den

/-- Round to the nearest integer, ties to even: the rounding Python's
`format` applies to the (here exact) numeric value. -/
def roundHalfEven (q : ℚ) : ℤ :=
  let f := qfloor q
  let frac := q - (f : ℚ)
  if frac < 1/2 then f
  else if 1/2 < frac then f + 1
  else if f % 2 = 0 then f else f + 1

/-- Insert a `,` after every three characters of a reversed digit list. -/
def commaRev : List Char → List Char
  | a :: b :: c :: d :: rest => a :: b :: c :: ',' :: commaRev (d :: rest)
  | l => l

/-- Decimal digits of `n` with thousands separators, as in Python `{:,}`. -/
def commaGroup (n : ℕ) : String :=
  ⟨(commaRev (Nat.toDigits 10 n).reverse).reverse⟩

/-- Two-digit rendering of a cent count `0 ≤ r < 100`. -/
def pad2 (r : ℕ) : String :=
  if r < 10 then "0" ++ toString r else toString r

/-- Python `{:,.2f}`: two decimals, thousands separators. -/
def formatComma2 (q : ℚ) : String :=
  let n := roundHalfEven (q * 100)
  let s := if n < 0 then "-" else ""
  let m := n.natAbs
  s ++ commaGroup (m / 100) ++ "." ++ pad2 (m % 100)

/-- Python `{:.2f}`: two decimals, no separators, sign only when negative. -/
def format2 (q : ℚ) : String :=
  let n := roundHalfEven (q * 100)
  let s := if n < 0 then "-" else ""
  let m := n.natAbs
  s ++ toString (m / 100) ++ "." ++ pad2 (m % 100)

/-- Modelled from the spec: the "signed" two-decimal rendering the spec
ascribes to the 24-hour change (Python `{:+.2f}`, explicit `+` on
non-negative values). The source uses `format2` instead. -/
def formatSigned2 (q : ℚ) : String :=
  if roundHalfEven (q * 100) < 0 then format2 q else "+" ++ format2 q

/-! ### Alert message composition (the f-strings of `check_price_thresholds`) -/

/-- The "below" alert message built when `current_price <= low_threshold`. -/
def belowMsg (symbol : String) (price low change : ℚ) : String :=
  "📉" ++ " **" ++ symbol ++ "** 跌破预警线！\n" ++
  "当前价格: $" ++ formatComma2 price ++ "\n" ++
  "预警线: $" ++ formatComma2 low ++ "\n" ++
  "24小时变化: " ++ format2 change ++ "%"

/-- The "above" alert message built when `current_price >= high_threshold`. -/
def aboveMsg (symbol : String) (price high change : ℚ) : String :=
  "📈" ++ " **" ++ symbol ++ "** 突破预警线！\n" ++
  "当前价格: $" ++ formatComma2 price ++ "\n" ++
  "预警线: $" ++ formatComma2 high ++ "\n" ++
  "24小时变化: " ++ format2 change ++ "%"

/-! ### The threshold evaluator -/

/-- The alerts one iteration of the `check_price_thresholds` loop appends
for the coin `(coin_id, thresholds)`: none when the coin is absent from
`prices`, otherwise the `if / elif / else` threshold test of the source. -/
def coinAlerts (coin_id : String) (thresholds : CoinConfig)
    (prices : List (String × PriceSample)) : List String :=
  match lookupPrice coin_id prices with
  | none => []
  | some sample =>
    let current_price := sample.usd
    let change_24h := (sample.usd_24h_change).getD 0
    if current_price ≤ thresholds.low_threshold then
      [belowMsg thresholds.symbol current_price thresholds.low_threshold change_24h]
    else if current_price ≥ thresholds.high_threshold then
      [aboveMsg thresholds.symbol current_price thresholds.high_threshold change_24h]
    else []

/-- `check_price_thresholds`, parameterised by the configuration mapping the
source reads from the global `MONITORS`: the loop over `monitors.items()`
appending each coin's alerts in iteration order. -/
def check_price_thresholds :
    List (String × CoinConfig) → List (String × PriceSample) → List String
  | [], _ => []
  | (coin_id, thresholds) :: rest, prices =>
    coinAlerts coin_id thresholds prices ++ check_price_thresholds rest prices

/-! ### Fetcher and main (control flow around the evaluator) -/

/-- `get_crypto_prices`: the `try/except` around the HTTP call, with the
outcome of the transport/decoding modelled as an `Except`. Any failure is
caught and turned into `none` (Python `None`). -/
def get_crypto_prices (response : Except String (List (String × PriceSample))) :
    Option (List (String × PriceSample)) :=
  match response with
  | Except.ok data => some data
  | Except.error _ => none

/-- Observable outcome of one run of `main`: whether the
"无法获取价格数据" branch logged and returned early, whether
`check_price_thresholds` was invoked, and the alerts passed to
`send_discord_alert`. -/
structure MainResult where
  logged_no_data : Bool
  evaluator_invoked : Bool
  alerts_sent : List String
  deriving DecidableEq, Repr

/-- `main`: fetch, then `if not prices: return` (Python falsiness covers both
`None` and the empty dict), else evaluate and send every alert. -/
def main (response : Except String (List (String × PriceSample))) : MainResult :=
  match get_crypto_prices response with
  | none => ⟨true, false, []⟩
  | some prices =>
    if prices.isEmpty then ⟨true, false, []⟩
    else ⟨false, true, check_price_thresholds MONITORS prices⟩

/-! ### Substring containment (for claims about message contents) -/

/-- `prefixChars pat l`: `pat` is an initial segment of `l`. -/
def prefixChars : List Char → List Char → Bool
  | [], _ => true
  | _ :: _, [] => false
  | a :: as, b :: bs => a == b && prefixChars as bs

/-- `subChars pat l`: `pat` occurs contiguously inside `l`. -/
def subChars (pat : List Char) : List Char → Bool
  | [] => prefixChars pat []
  | c :: rest => prefixChars pat (c :: rest) || subChars pat rest

/-- String containment: `pat` occurs contiguously inside `s`. -/
def strContains (s pat : String) : Bool := subChars pat.data s.data

/-! ### Basic lemmas about the substring predicate -/

/-- The empty pattern occurs in every list. -/
theorem subChars_nil (l : List Char) : subChars [] l = true := by
  induction l with
  | nil => rfl
  | cons c rest ih => simp [subChars, prefixChars, ih]

/-- A list is a prefix of itself. -/
theorem prefixChars_refl (l : List Char) : prefixChars l l = true := by
  induction l with
  | nil => rfl
  | cons a as ih => simp [prefixChars, ih]

/-- Extending the searched list on the right preserves prefixes. -/
theorem prefixChars_append (p s t : List Char) (h : prefixChars p s = true) :
    prefixChars p (s ++ t) = true := by
  induction p generalizing s with
  | nil => rfl
  | cons a as ih =>
    cases s with
    | nil => exact absurd h (by simp [prefixChars])
    | cons b bs =>
      simp only [prefixChars, Bool.and_eq_true] at h ⊢
      exact ⟨h.1, ih bs h.2⟩

/-- A list occurs in itself. -/
theorem subChars_self (l : List Char) : subChars l l = true := by
  cases l with
  | nil => rfl
  | cons c cs => simp [subChars, prefixChars_refl]

/-- Extending the searched list on the right preserves occurrence. -/
theorem subChars_append_right (p s t : List Char) (h : subChars p s = true) :
    subChars p (s ++ t) = true := by
  induction s with
  | nil =>
    cases p with
    | nil => exact subChars_nil t
    | cons a as => exact absurd h (by simp [subChars, prefixChars])
  | cons c cs ih =>
    simp only [subChars, Bool.or_eq_true] at h
    rcases h with h | h
    · simp only [List.cons_append, subChars, Bool.or_eq_true]
      exact Or.inl (prefixChars_append _ _ _ h)
    · simp only [List.cons_append, subChars, Bool.or_eq_true]
      exact Or.inr (ih h)

/-- Extending the searched list on the left preserves occurrence. -/
theorem subChars_append_left (p s t : List Char) (h : subChars p s = true) :
    subChars p (t ++ s) = true := by
  induction t with
  | nil => exact h
  | cons c ct ih =>
    simp only [List.cons_append, subChars, Bool.or_eq_true]
    exact Or.inr ih

/-- A string built as `pre ++ mid ++ post` contains `mid`. -/
theorem strContains_parts (pre mid post s : String)
    (h : s.data = pre.data ++ (mid.data ++ post.data)) :
    strContains s mid = true := by
  unfold strContains
  rw [h]
  exact subChars_append_left _ _ _ (subChars_append_right _ _ _ (subChars_self _))

/-- `String.append` concatenates the underlying character lists. -/
theorem strData_append (a b : String) : (a ++ b).data = a.data ++ b.data := rfl

/-- The "below" message contains the direction emoji. -/
theorem belowMsg_has_emoji (symbol : String) (price low change : ℚ) :
    strContains (belowMsg symbol price low change) "📉" = true := by
  apply strContains_parts ""
    ("📉")
    (" **" ++ symbol ++ "** 跌破预警线！\n" ++ "当前价格: $" ++ formatComma2 price ++ "\n" ++
      "预警线: $" ++ formatComma2 low ++ "\n" ++ "24小时变化: " ++ format2 change ++ "%")
  simp [belowMsg, strData_append]

/-- The "below" message contains the coin's symbol. -/
theorem belowMsg_has_symbol (symbol : String) (price low change : ℚ) :
    strContains (belowMsg symbol price low change) symbol = true := by
  apply strContains_parts ("📉" ++ " **")
    symbol
    ("** 跌破预警线！\n" ++ "当前价格: $" ++ formatComma2 price ++ "\n" ++
      "预警线: $" ++ formatComma2 low ++ "\n" ++ "24小时变化: " ++ format2 change ++ "%")
  simp [belowMsg, strData_append]

/-- The "below" message contains the current price, `{:,.2f}`-formatted. -/
theorem belowMsg_has_price (symbol : String) (price low change : ℚ) :
    strContains (belowMsg symbol price low change) (formatComma2 price) = true := by
  apply strContains_parts ("📉" ++ " **" ++ symbol ++ "** 跌破预警线！\n" ++ "当前价格: $")
    (formatComma2 price)
    ("\n" ++ "预警线: $" ++ formatComma2 low ++ "\n" ++ "24小时变化: " ++ format2 change ++ "%")
  simp [belowMsg, strData_append]

/-- The "below" message contains the crossed threshold, `{:,.2f}`-formatted. -/
theorem belowMsg_has_threshold (symbol : String) (price low change : ℚ) :
    strContains (belowMsg symbol price low change) (formatComma2 low) = true := by
  apply strContains_parts
    ("📉" ++ " **" ++ symbol ++ "** 跌破预警线！\n" ++ "当前价格: $" ++ formatComma2 price ++
      "\n" ++ "预警线: $")
    (formatComma2 low)
    ("\n" ++ "24小时变化: " ++ format2 change ++ "%")
  simp [belowMsg, strData_append]

/-- The "below" message contains the 24h change, `{:.2f}`-formatted, with `%`. -/
theorem belowMsg_has_change (symbol : String) (price low change : ℚ) :
    strContains (belowMsg symbol price low change) (format2 change ++ "%") = true := by
  apply strContains_parts
    ("📉" ++ " **" ++ symbol ++ "** 跌破预警线！\n" ++ "当前价格: $" ++ formatComma2 price ++
      "\n" ++ "预警线: $" ++ formatComma2 low ++ "\n" ++ "24小时变化: ")
    (format2 change ++ "%") ""
  simp [belowMsg, strData_append]

/-- The "above" message contains the direction emoji. -/
theorem aboveMsg_has_emoji (symbol : String) (price high change : ℚ) :
    strContains (aboveMsg symbol price high change) "📈" = true := by
  apply strContains_parts ""
    ("📈")
    (" **" ++ symbol ++ "** 突破预警线！\n" ++ "当前价格: $" ++ formatComma2 price ++ "\n" ++
      "预警线: $" ++ formatComma2 high ++ "\n" ++ "24小时变化: " ++ format2 change ++ "%")
  simp [aboveMsg, strData_append]

/-- The "above" message contains the coin's symbol. -/
theorem aboveMsg_has_symbol (symbol : String) (price high change : ℚ) :
    strContains (aboveMsg symbol price high change) symbol = true := by
  apply strContains_parts ("📈" ++ " **")
    symbol
    ("** 突破预警线！\n" ++ "当前价格: $" ++ formatComma2 price ++ "\n" ++
      "预警线: $" ++ formatComma2 high ++ "\n" ++ "24小时变化: " ++ format2 change ++ "%")
  simp [aboveMsg, strData_append]

/-- The "above" message contains the current price, `{:,.2f}`-formatted. -/
theorem aboveMsg_has_price (symbol : String) (price high change : ℚ) :
    strContains (aboveMsg symbol price high change) (formatComma2 price) = true := by
  apply strContains_parts ("📈" ++ " **" ++ symbol ++ "** 突破预警线！\n" ++ "当前价格: $")
    (formatComma2 price)
    ("\n" ++ "预警线: $" ++ formatComma2 high ++ "\n" ++ "24小时变化: " ++ format2 change ++ "%")
  simp [aboveMsg, strData_append]

/-- The "above" message contains the crossed threshold, `{:,.2f}`-formatted. -/
theorem aboveMsg_has_threshold (symbol : String) (price high change : ℚ) :
    strContains (aboveMsg symbol price high change) (formatComma2 high) = true := by
  apply strContains_parts
    ("📈" ++ " **" ++ symbol ++ "** 突破预警线！\n" ++ "当前价格: $" ++ formatComma2 price ++
      "\n" ++ "预警线: $")
    (formatComma2 high)
    ("\n" ++ "24小时变化: " ++ format2 change ++ "%")
  simp [aboveMsg, strData_append]

/-- The "above" message contains the 24h change, `{:.2f}`-formatted, with `%`. -/
theorem aboveMsg_has_change (symbol : String) (price high change : ℚ) :
    strContains (aboveMsg symbol price high change) (format2 change ++ "%") = true := by
  apply strContains_parts
    ("📈" ++ " **" ++ symbol ++ "** 突破预警线！\n" ++ "当前价格: $" ++ formatComma2 price ++
      "\n" ++ "预警线: $" ++ formatComma2 high ++ "\n" ++ "24小时变化: ")
    (format2 change ++ "%") ""
  simp [aboveMsg, strData_append]

/-! ### Unfolding lemmas for the evaluator -/

/-- One loop iteration for a coin present in `prices` is the source's
`if / elif / else` threshold test on its sample. -/
theorem coinAlerts_of_lookup (coin_id : String) (cfg : CoinConfig)
    (prices : List (String × PriceSample)) (sample : PriceSample)
    (h : lookupPrice coin_id prices = some sample) :
    coinAlerts coin_id cfg prices =
      if sample.usd ≤ cfg.low_threshold then
        [belowMsg cfg.symbol sample.usd cfg.low_threshold (sample.usd_24h_change.getD 0)]
      else if sample.usd ≥ cfg.high_threshold then
        [aboveMsg cfg.symbol sample.usd cfg.high_threshold (sample.usd_24h_change.getD 0)]
      else [] := by
  unfold coinAlerts
  rw [h]

/-- The evaluator distributes over concatenation of configuration lists. -/
theorem check_append (xs ys : List (String × CoinConfig))
    (prices : List (String × PriceSample)) :
    check_price_thresholds (xs ++ ys) prices =
      check_price_thresholds xs prices ++ check_price_thresholds ys prices := by
  induction xs with
  | nil => rfl
  | cons hd tl ih =>
    obtain ⟨c, t⟩ := hd
    simp [check_price_thresholds, ih, List.append_assoc]

/-- The evaluator on a non-empty configuration list. -/
theorem check_cons (a : String × CoinConfig) (rest : List (String × CoinConfig))
    (prices : List (String × PriceSample)) :
    check_price_thresholds (a :: rest) prices =
      coinAlerts a.1 a.2 prices ++ check_price_thresholds rest prices := by
  obtain ⟨c, t⟩ := a
  rfl

/-! ### Claims -/

/-- Claim C1: for a coin present in both the price mapping and the
configuration, the evaluator emits the "below" alert when
`price ≤ low_threshold`, otherwise the "above" alert when
`price ≥ high_threshold`, otherwise nothing; in particular it emits an
alert iff `price ≤ low_threshold ∨ price ≥ high_threshold`, both
comparisons inclusive. -/
theorem check_alert_iff_threshold (coin_id : String) (cfg : CoinConfig)
    (prices : List (String × PriceSample)) (sample : PriceSample)
    (h : lookupPrice coin_id prices = some sample) :
    coinAlerts coin_id cfg prices =
      (if sample.usd ≤ cfg.low_threshold then
        [belowMsg cfg.symbol sample.usd cfg.low_threshold (sample.usd_24h_change.getD 0)]
      else if sample.usd ≥ cfg.high_threshold then
        [aboveMsg cfg.symbol sample.usd cfg.high_threshold (sample.usd_24h_change.getD 0)]
      else []) ∧
    (coinAlerts coin_id cfg prices ≠ [] ↔
      sample.usd ≤ cfg.low_threshold ∨ sample.usd ≥ cfg.high_threshold) := by
  have he := coinAlerts_of_lookup coin_id cfg prices sample h
  refine ⟨he, ?_⟩
  rw [he]
  by_cases h1 : sample.usd ≤ cfg.low_threshold
  · simp [h1]
  · by_cases h2 : sample.usd ≥ cfg.high_threshold
    · simp [h1, h2]
    · simp [h1, h2]

/-- Witness for C1 at the spec's boundary example: config
`{low: 300, high: 500}`, price exactly `500` — one "above" alert. -/
theorem check_alert_iff_threshold_witness :
    lookupPrice "binancecoin" [("binancecoin", ⟨500, none⟩)] = some ⟨500, none⟩ ∧
    ((coinAlerts "binancecoin" ⟨"BNB", 300, 500⟩ [("binancecoin", ⟨500, none⟩)] =
      (if (500 : ℚ) ≤ 300 then [belowMsg "BNB" 500 300 0]
      else if (500 : ℚ) ≥ 500 then [aboveMsg "BNB" 500 500 0]
      else [])) ∧
    (coinAlerts "binancecoin" ⟨"BNB", 300, 500⟩ [("binancecoin", ⟨500, none⟩)] ≠ [] ↔
      (500 : ℚ) ≤ 300 ∨ (500 : ℚ) ≥ 500)) :=
  ⟨by with_unfolding_all rfl,
   check_alert_iff_threshold "binancecoin" ⟨"BNB", 300, 500⟩
     [("binancecoin", ⟨500, none⟩)] ⟨500, none⟩ (by with_unfolding_all rfl)⟩

/-- Claim C2: when a coin's price satisfies both threshold conditions at
once, exactly one alert is emitted for it, and it is the "below" one
(the `elif` gives the low test precedence). -/
theorem both_conditions_single_below (coin_id : String) (cfg : CoinConfig)
    (prices : List (String × PriceSample)) (sample : PriceSample)
    (h : lookupPrice coin_id prices = some sample)
    (hlow : sample.usd ≤ cfg.low_threshold)
    (_hhigh : sample.usd ≥ cfg.high_threshold) :
    coinAlerts coin_id cfg prices =
      [belowMsg cfg.symbol sample.usd cfg.low_threshold (sample.usd_24h_change.getD 0)] := by
  rw [coinAlerts_of_lookup coin_id cfg prices sample h, if_pos hlow]

/-- Witness for C2: price `400` with `low = 500 > high = 300` satisfies
both conditions; the single alert is the "below" one. -/
theorem both_conditions_single_below_witness :
    lookupPrice "binancecoin" [("binancecoin", ⟨400, none⟩)] = some ⟨400, none⟩ ∧
    (400 : ℚ) ≤ 500 ∧ (400 : ℚ) ≥ 300 ∧
    coinAlerts "binancecoin" ⟨"BNB", 500, 300⟩ [("binancecoin", ⟨400, none⟩)] =
      [belowMsg "BNB" 400 500 0] :=
  ⟨by with_unfolding_all rfl, by with_unfolding_all decide, by with_unfolding_all decide,
   both_conditions_single_below "binancecoin" ⟨"BNB", 500, 300⟩
     [("binancecoin", ⟨400, none⟩)] ⟨400, none⟩ (by with_unfolding_all rfl)
     (by with_unfolding_all decide) (by with_unfolding_all decide)⟩

/-- Counterexample to C3 as stated: with `low = 500 > high = 300` and price
`600`, the `elif price >= high_threshold` branch fires and the evaluator
does emit the "above" alert (which is not any "below" message for this
coin's data). -/
theorem misconfig_above_alert_counterexample :
    (300 : ℚ) < 500 ∧
    coinAlerts "binancecoin" ⟨"BNB", 500, 300⟩ [("binancecoin", ⟨600, none⟩)] =
      [aboveMsg "BNB" 600 300 0] ∧
    aboveMsg "BNB" 600 300 0 ≠ belowMsg "BNB" 600 500 0 := by
  refine ⟨by with_unfolding_all decide, by with_unfolding_all decide,
    by with_unfolding_all decide⟩

/-- Claim C3 amended: with `low_threshold > high_threshold` the coin
always alerts — "below" when `price ≤ low_threshold`, and otherwise the
"above" alert (so "above" alerts do occur, exactly when
`price > low_threshold`). -/
theorem misconfig_low_gt_high_always_alerts (coin_id : String) (cfg : CoinConfig)
    (prices : List (String × PriceSample)) (sample : PriceSample)
    (h : lookupPrice coin_id prices = some sample)
    (hmis : cfg.high_threshold < cfg.low_threshold) :
    coinAlerts coin_id cfg prices =
      if sample.usd ≤ cfg.low_threshold then
        [belowMsg cfg.symbol sample.usd cfg.low_threshold (sample.usd_24h_change.getD 0)]
      else
        [aboveMsg cfg.symbol sample.usd cfg.high_threshold (sample.usd_24h_change.getD 0)] := by
  rw [coinAlerts_of_lookup coin_id cfg prices sample h]
  by_cases h1 : sample.usd ≤ cfg.low_threshold
  · simp [h1]
  · have h2 : sample.usd ≥ cfg.high_threshold :=
      le_of_lt (hmis.trans (lt_of_not_le h1))
    simp [h1, h2]

/-- Witness for the amended C3 at `low = 500 > high = 300`, price `600`:
the "above" branch. -/
theorem misconfig_low_gt_high_always_alerts_witness :
    lookupPrice "binancecoin" [("binancecoin", ⟨600, none⟩)] = some ⟨600, none⟩ ∧
    (300 : ℚ) < 500 ∧
    coinAlerts "binancecoin" ⟨"BNB", 500, 300⟩ [("binancecoin", ⟨600, none⟩)] =
      (if (600 : ℚ) ≤ 500 then [belowMsg "BNB" 600 500 0]
      else [aboveMsg "BNB" 600 300 0]) :=
  ⟨by with_unfolding_all rfl, by with_unfolding_all decide,
   misconfig_low_gt_high_always_alerts "binancecoin" ⟨"BNB", 500, 300⟩
     [("binancecoin", ⟨600, none⟩)] ⟨600, none⟩ (by with_unfolding_all rfl)
     (by with_unfolding_all decide)⟩

/-- Claim C4: a coin present in the configuration but absent from the price
mapping contributes no alert, whatever its thresholds. -/
theorem absent_coin_no_alert (coin_id : String) (cfg : CoinConfig)
    (prices : List (String × PriceSample))
    (h : lookupPrice coin_id prices = none) :
    coinAlerts coin_id cfg prices = [] := by
  unfold coinAlerts
  rw [h]

/-- Witness for C4: "ethereum" is configured but missing from the fetched
prices; no alert results. -/
theorem absent_coin_no_alert_witness :
    lookupPrice "ethereum" [("bitcoin", ⟨1, none⟩)] = none ∧
    coinAlerts "ethereum" ⟨"ETH", 2500, 4000⟩ [("bitcoin", ⟨1, none⟩)] = [] :=
  ⟨by with_unfolding_all rfl,
   absent_coin_no_alert "ethereum" ⟨"ETH", 2500, 4000⟩ [("bitcoin", ⟨1, none⟩)]
     (by with_unfolding_all rfl)⟩

/-- Claim C5: the evaluator's output is ordered by the iteration order of
the configuration list: around any two configured coins `a` before `b`,
the output decomposes as the alerts of the prefix, then `a`'s alerts, the
middle, `b`'s alerts, and the suffix, in that order. -/
theorem alerts_follow_config_order (m₁ m₂ m₃ : List (String × CoinConfig))
    (a b : String × CoinConfig) (prices : List (String × PriceSample)) :
    check_price_thresholds (m₁ ++ a :: (m₂ ++ b :: m₃)) prices =
      check_price_thresholds m₁ prices ++
        (coinAlerts a.1 a.2 prices ++
          (check_price_thresholds m₂ prices ++
            (coinAlerts b.1 b.2 prices ++ check_price_thresholds m₃ prices))) := by
  simp [check_append, check_cons]

/-- Claim C6: the evaluator is a deterministic function of its two inputs:
equal configuration and price inputs give equal alert sequences. In this
embedding `check_price_thresholds` is a total pure function, so the
returned alerts depend on nothing but the two arguments. -/
theorem evaluator_deterministic (monitors₁ monitors₂ : List (String × CoinConfig))
    (prices₁ prices₂ : List (String × PriceSample))
    (hm : monitors₁ = monitors₂) (hp : prices₁ = prices₂) :
    check_price_thresholds monitors₁ prices₁ = check_price_thresholds monitors₂ prices₂ := by
  rw [hm, hp]

/-- Witness for C6 on the repository's `MONITORS` and a concrete fetch. -/
theorem evaluator_deterministic_witness :
    MONITORS = MONITORS ∧
    [("bitcoin", (⟨39999.99, some (-1.2)⟩ : PriceSample))] =
      [("bitcoin", (⟨39999.99, some (-1.2)⟩ : PriceSample))] ∧
    check_price_thresholds MONITORS [("bitcoin", ⟨39999.99, some (-1.2)⟩)] =
      check_price_thresholds MONITORS [("bitcoin", ⟨39999.99, some (-1.2)⟩)] :=
  ⟨rfl, rfl,
   evaluator_deterministic MONITORS MONITORS
     [("bitcoin", ⟨39999.99, some (-1.2)⟩)] [("bitcoin", ⟨39999.99, some (-1.2)⟩)] rfl rfl⟩

/-- Counterexample to C7 as stated: the source formats the 24h change with
`{:.2f}` rather than a signed `{:+.2f}`, so for a positive change `+3.5`
the alert carries `3.50%` and not the signed `+3.50%` the claim asserts. -/
theorem change_not_signed_counterexample :
    check_price_thresholds [("bitcoin", ⟨"BTC", 40000, 70000⟩)]
        [("bitcoin", ⟨100000, some 3.5⟩)] =
      [aboveMsg "BTC" 100000 70000 3.5] ∧
    formatSigned2 (3.5 : ℚ) = "+3.50" ∧
    strContains (aboveMsg "BTC" 100000 70000 3.5) (formatSigned2 (3.5 : ℚ) ++ "%") = false ∧
    strContains (aboveMsg "BTC" 100000 70000 3.5) ("3.50" ++ "%") = true := by
  refine ⟨by with_unfolding_all decide, by with_unfolding_all decide,
    by with_unfolding_all decide, by with_unfolding_all decide⟩

/-- Claim C7 amended: every alert message embeds the direction emoji, the
coin's symbol, the price and the crossed threshold `{:,.2f}`-formatted, and
the 24-hour change with two decimals but a sign only when it is negative
(`{:.2f}`); on the spec's example — config `{low: 40000, high: 70000}`,
sample `{price: 39999.99, change: -1.2}` — the single "below" alert
contains `39,999.99` and `-1.20%`. -/
theorem alert_message_contents :
    (∀ (symbol : String) (price low change : ℚ),
      strContains (belowMsg symbol price low change) "📉" = true ∧
      strContains (belowMsg symbol price low change) symbol = true ∧
      strContains (belowMsg symbol price low change) (formatComma2 price) = true ∧
      strContains (belowMsg symbol price low change) (formatComma2 low) = true ∧
      strContains (belowMsg symbol price low change) (format2 change ++ "%") = true) ∧
    (∀ (symbol : String) (price high change : ℚ),
      strContains (aboveMsg symbol price high change) "📈" = true ∧
      strContains (aboveMsg symbol price high change) symbol = true ∧
      strContains (aboveMsg symbol price high change) (formatComma2 price) = true ∧
      strContains (aboveMsg symbol price high change) (formatComma2 high) = true ∧
      strContains (aboveMsg symbol price high change) (format2 change ++ "%") = true) ∧
    check_price_thresholds [("bitcoin", ⟨"BTC", 40000, 70000⟩)]
        [("bitcoin", ⟨39999.99, some (-1.2)⟩)] =
      [belowMsg "BTC" 39999.99 40000 (-1.2)] ∧
    strContains (belowMsg "BTC" 39999.99 40000 (-1.2)) "39,999.99" = true ∧
    strContains (belowMsg "BTC" 39999.99 40000 (-1.2)) "-1.20%" = true := by
  refine ⟨?_, ?_, by with_unfolding_all decide, by with_unfolding_all decide,
    by with_unfolding_all decide⟩
  · intro symbol price low change
    exact ⟨belowMsg_has_emoji symbol price low change,
      belowMsg_has_symbol symbol price low change,
      belowMsg_has_price symbol price low change,
      belowMsg_has_threshold symbol price low change,
      belowMsg_has_change symbol price low change⟩
  · intro symbol price high change
    exact ⟨aboveMsg_has_emoji symbol price high change,
      aboveMsg_has_symbol symbol price high change,
      aboveMsg_has_price symbol price high change,
      aboveMsg_has_threshold symbol price high change,
      aboveMsg_has_change symbol price high change⟩

/-- Claim C8: any fetch failure is caught inside `get_crypto_prices` and
becomes the `None` failure signal; `main` then takes the
"无法获取价格数据" early return, so the evaluator is never invoked and no
alert is sent. Both model functions being total, the run terminates
without an exception. -/
theorem fetch_failure_clean_exit (e : String) :
    get_crypto_prices (Except.error e) = none ∧
    main (Except.error e) =
      { logged_no_data := true, evaluator_invoked := false, alerts_sent := [] } :=
  ⟨rfl, rfl⟩

/-- The source's `{:.2f}` rendering of the default change `0`. -/
theorem format2_zero : format2 (0 : ℚ) = "0.00" := by with_unfolding_all rfl

/-- String-literal form of the rendered default change with its `%`. -/
theorem zero_pct_append : ("0.00" ++ "%" : String) = "0.00%" := rfl

/-- Claim C9: a sample without the `usd_24h_change` field is handled (the
`.get` default), the change is treated as `0`, and any alert emitted for
the coin carries `0.00%`. -/
theorem missing_change_defaults_zero (coin_id : String) (cfg : CoinConfig)
    (prices : List (String × PriceSample)) (sample : PriceSample)
    (h : lookupPrice coin_id prices = some sample)
    (hc : sample.usd_24h_change = none) :
    coinAlerts coin_id cfg prices =
      (if sample.usd ≤ cfg.low_threshold then
        [belowMsg cfg.symbol sample.usd cfg.low_threshold 0]
      else if sample.usd ≥ cfg.high_threshold then
        [aboveMsg cfg.symbol sample.usd cfg.high_threshold 0]
      else []) ∧
    ∀ msg ∈ coinAlerts coin_id cfg prices, strContains msg "0.00%" = true := by
  have he := coinAlerts_of_lookup coin_id cfg prices sample h
  rw [hc] at he
  refine ⟨he, ?_⟩
  intro msg hmsg
  rw [he] at hmsg
  by_cases h1 : sample.usd ≤ cfg.low_threshold
  · rw [if_pos h1] at hmsg
    simp only [List.mem_singleton] at hmsg
    subst hmsg
    have hb := belowMsg_has_change cfg.symbol sample.usd cfg.low_threshold 0
    rwa [format2_zero, zero_pct_append] at hb
  · rw [if_neg h1] at hmsg
    by_cases h2 : sample.usd ≥ cfg.high_threshold
    · rw [if_pos h2] at hmsg
      simp only [List.mem_singleton] at hmsg
      subst hmsg
      have ha := aboveMsg_has_change cfg.symbol sample.usd cfg.high_threshold 0
      rwa [format2_zero, zero_pct_append] at ha
    · rw [if_neg h2] at hmsg
      simp at hmsg

/-- Witness for C9: a below-threshold bitcoin sample with no
`usd_24h_change` field. -/
theorem missing_change_defaults_zero_witness :
    lookupPrice "bitcoin" [("bitcoin", ⟨30000, none⟩)] = some ⟨30000, none⟩ ∧
    (⟨30000, none⟩ : PriceSample).usd_24h_change = none ∧
    (coinAlerts "bitcoin" ⟨"BTC", 40000, 70000⟩ [("bitcoin", ⟨30000, none⟩)] =
      (if (30000 : ℚ) ≤ 40000 then [belowMsg "BTC" 30000 40000 0]
      else if (30000 : ℚ) ≥ 70000 then [aboveMsg "BTC" 30000 70000 0]
      else []) ∧
    ∀ msg ∈ coinAlerts "bitcoin" ⟨"BTC", 40000, 70000⟩ [("bitcoin", ⟨30000, none⟩)],
      strContains msg "0.00%" = true) :=
  ⟨by with_unfolding_all rfl, rfl,
   missing_change_defaults_zero "bitcoin" ⟨"BTC", 40000, 70000⟩
     [("bitcoin", ⟨30000, none⟩)] ⟨30000, none⟩ (by with_unfolding_all rfl) rfl⟩

/-- Claim C10: a successful fetch of an empty price mapping takes the same
`if not prices` early return as a failed fetch: the no-data line is
logged, the evaluator is not invoked, no alert is sent, and the run
terminates normally. -/
theorem empty_prices_like_failure :
    get_crypto_prices (Except.ok []) = some [] ∧
    main (Except.ok []) =
      { logged_no_data := true, evaluator_invoked := false, alerts_sent := [] } ∧
    ∀ e : String, main (Except.ok []) = main (Except.error e) :=
  ⟨rfl, rfl, fun _ => rfl⟩

end CryptoMonitor
